import Mathlib

set_option maxHeartbeats 1000000
set_option maxRecDepth 100000

/-!
Shallow embedding of the two patch scripts of the evetrade repository,
`src/update_pages.py` and `src/final_update.py`.

Both scripts transform the text of two JSX files by a fixed sequence of
Python string operations.  Every `re.sub` pattern in the scripts is a fully
escaped regular expression, i.e. a string literal (with the capture groups
capturing fixed literals), so each operation is one of:

* `str.replace(old, new)`        - replace all non-overlapping occurrences,
* `str.replace(old, new, 1)` and `re.sub(pat, repl, s, count=1)` - replace
  only the leftmost occurrence,
* `re.sub(pat, repl, s)`         - replace all non-overlapping occurrences,
* `str.split(sep)` followed by index arithmetic (the fallback branches).

Program text is modelled as `List Char`.  The scanning functions are
fuel-indexed (fuel counts list length; each step consumes at least one
character, so `fuel = s.length` never runs out), which keeps every
definition structurally recursive and hence evaluable by the kernel.
-/

/-- Characters of a Lean string literal; all program text is a `List Char`. -/
def strL (s : String) : List Char := s.data

/-- Does `pat` occur at the head of `s`?  This is the character comparison
primitive underlying Python substring search. -/
def matchesAt : List Char → List Char → Bool
  | [], _ => true
  | _ :: _, [] => false
  | p :: ps, c :: cs => p == c && matchesAt ps cs

/-- Number of non-overlapping occurrences of `pat` in `s`, scanning left to
right and resuming after each match, exactly as Python substring search does.
Fuel-indexed; callers pass `fuel = s.length`.  For empty `pat` the guard
makes this `0` (no script calls it with an empty pattern). -/
def countOccAux (pat : List Char) : Nat → List Char → Nat
  | _, [] => 0
  | 0, _ :: _ => 0
  | fuel + 1, c :: rest =>
    if !pat.isEmpty && matchesAt pat (c :: rest) then
      countOccAux pat fuel (List.drop pat.length (c :: rest)) + 1
    else
      countOccAux pat fuel rest

/-- Number of non-overlapping occurrences of `pat` in `s`. -/
def countOcc (pat s : List Char) : Nat := countOccAux pat s.length s

/-- Python `s.replace(pat, repl)` (and `re.sub(pat, repl, s)` for the literal
patterns of these scripts): replace every non-overlapping occurrence, left to
right, resuming after the inserted replacement.  For empty `pat` this is the
identity (no script calls it with an empty pattern, where Python would
interleave `repl` between characters). -/
def listReplaceAllAux (pat repl : List Char) : Nat → List Char → List Char
  | _, [] => []
  | 0, c :: rest => c :: rest
  | fuel + 1, c :: rest =>
    if !pat.isEmpty && matchesAt pat (c :: rest) then
      repl ++ listReplaceAllAux pat repl fuel (List.drop pat.length (c :: rest))
    else
      c :: listReplaceAllAux pat repl fuel rest

/-- Replace all non-overlapping occurrences of `pat` in `s` by `repl`. -/
def listReplaceAll (pat repl s : List Char) : List Char :=
  listReplaceAllAux pat repl s.length s

/-- Python `s.replace(pat, repl, 1)` and `re.sub(pat, repl, s, count=1)` for
the literal patterns of these scripts: replace only the leftmost occurrence,
leave `s` unchanged when there is none. -/
def listReplaceFirstAux (pat repl : List Char) : Nat → List Char → List Char
  | _, [] => []
  | 0, c :: rest => c :: rest
  | fuel + 1, c :: rest =>
    if !pat.isEmpty && matchesAt pat (c :: rest) then
      repl ++ List.drop pat.length (c :: rest)
    else
      c :: listReplaceFirstAux pat repl fuel rest

/-- Replace the leftmost occurrence of `pat` in `s` by `repl`. -/
def listReplaceFirst (pat repl s : List Char) : List Char :=
  listReplaceFirstAux pat repl s.length s

/-- Prepend a character to the first part of a split result. -/
def consHead (c : Char) : List (List Char) → List (List Char)
  | [] => [[c]]
  | p :: ps => (c :: p) :: ps

/-- Python `s.split(sep)` for nonempty `sep`: the segments of `s` between
non-overlapping left-to-right occurrences of `sep`.  Fuel-indexed; callers
pass `fuel = s.length`.  (Python raises on an empty separator; the guard
makes the empty case return `[s]`, and no script splits on an empty
separator.) -/
def pySplitAux (sep : List Char) : Nat → List Char → List (List Char)
  | _, [] => [[]]
  | 0, c :: rest => [c :: rest]
  | fuel + 1, c :: rest =>
    if !sep.isEmpty && matchesAt sep (c :: rest) then
      [] :: pySplitAux sep fuel (List.drop sep.length (c :: rest))
    else
      consHead c (pySplitAux sep fuel rest)

/-- Python `s.split(sep)`. -/
def pySplit (sep s : List Char) : List (List Char) := pySplitAux sep s.length s

/-- Python `sep.join(parts)`. -/
def joinWith (sep : List Char) : List (List Char) → List Char
  | [] => []
  | [p] => p
  | p :: q :: ps => p ++ sep ++ joinWith sep (q :: ps)

/-! ### Literal search and replacement texts of the two scripts -/

def fuS1Pat : List Char := strL "  const [toInput, setToInput] = useState(\x27\x27);\n"

def fuS1Repl : List Char := strL "  const [toInput, setToInput] = useState(\x27\x27);\n\n  // Form validation error\n  const [formError, setFormError] = useState(\x27\x27);\n"

def fuS2aBadPat : List Char := strL "(    if \\(type === \x27from\x27\\) setFromInput\\(\x27\x27\\);\\n    else setToInput\\(\x27\x27\\);)\\n(  \x7d, \\[\\]);)"

def fuS2bPat : List Char := strL "  \x7d, []);  // addStation"

def fuS2bRepl : List Char := strL "  \x7d, [formError]);"

def fuS3aBadPat : List Char := strL "(      \\[`\\$\\\x7btype\\\x7dStations`\\]: prev\\[`\\$\\\x7btype\\\x7dStations`\\]\\.filter\\(\\(s\\) => s !== station\\),\\n    \x7d\\)\\);)\\n(  \x7d, \\[\\]);)"

def fuS4aBadPat : List Char := strL "(  const updateForm = useCallback\\(\\(key, value\\) => \\\x7b\\n    setForm\\(\\(prev\\) => \\(\\\x7b \\.\\.\\.prev, \\[key\\]: value \\\x7d\\)\\);)\\n(  \x7d, \\[\\]);)"

def fuS5Pat : List Char := strL "alert(\x27Please select at least one station for both origin and destination\x27)"

def fuS5Repl : List Char := strL "setFormError(\x27Please select at least one station for both origin and destination\x27)"

def fuS6Pat : List Char := strL "      if (!fromLocation || !toLocation) \x7b\n        setFormError(\x27Please select at least one station for both origin and destination\x27);\n        return;\n      \x7d\n\n      try \x7b"

def fuS6Repl : List Char := strL "      if (!fromLocation || !toLocation) \x7b\n        setFormError(\x27Please select at least one station for both origin and destination\x27);\n        return;\n      \x7d\n\n      // Clear form error on valid submission\n      setFormError(\x27\x27);\n\n      try \x7b"

def fuS7Pat : List Char := strL "        </GlassmorphicCard>\n\n        \x7b/* Error */\x7d\n        \x7berror && ("

def fuS7Repl : List Char := strL "        </GlassmorphicCard>\n\n        \x7b/* Error */\x7d\n\n        \x7b/* Form Validation Error */\x7d\n        \x7bformError && (\n          <div\n            role=\"alert\"\n            aria-live=\"polite\"\n            className=\"mb-8 p-4 bg-red-500/20 border border-red-500/50 rounded-lg text-red-400\"\n          >\n            <strong>Validation Error:</strong> \x7bformError\x7d\n          </div>\n        )\x7d\n\n        \x7b/* API Error */\x7d\n        \x7berror && ("

def fuS8Pat : List Char := strL "\x7berror && (\n          <div className=\"mb-8 p-4 bg-red-500/20 border border-red-500/50 rounded-lg text-red-400\">"

def fuS8Repl : List Char := strL "\x7berror && (\n          <div\n            role=\"alert\"\n            aria-live=\"polite\"\n            className=\"mb-8 p-4 bg-red-500/20 border border-red-500/50 rounded-lg text-red-400\"\n          >"

def fuR1Pat : List Char := strL "  \x7d);\n\n  // Get nearby regions"

def fuR1Repl : List Char := strL "  \x7d);\n\n  // Form validation error\n  const [formError, setFormError] = useState(\x27\x27);\n\n  // Get nearby regions"

def fuR2aPat : List Char := strL "  const updateForm = useCallback((key, value) => \x7b\n    setForm((prev) => (\x7b ...prev, [key]: value \x7d));\n\n    // Reset toRegion"

def fuR2aRepl : List Char := strL "  const updateForm = useCallback((key, value) => \x7b\n    setForm((prev) => (\x7b ...prev, [key]: value \x7d));\n    // Clear form error when user makes changes\n    if (formError) setFormError(\x27\x27);\n\n    // Reset toRegion"

def fuR2bBadPat : List Char := strL "(      setForm\\(\\(prev\\) => \\(\\\x7b \\.\\.\\.prev, toRegion: \x27Nearby Regions\x27 \\\x7d\\)\\);\\n    \\\x7d\\n  \x7d, \\[\\]);)"

def fuR2cPat : List Char := strL "  \x7d, []);  // updateForm Region"

def fuR2cRepl : List Char := strL "  \x7d, [formError]);"

def fuR3aPat : List Char := strL "alert(\x27Please select a valid origin region\x27)"

def fuR3aRepl : List Char := strL "setFormError(\x27Please select a valid origin region\x27)"

def fuR3bPat : List Char := strL "alert(\x27Please select a valid destination region\x27)"

def fuR3bRepl : List Char := strL "setFormError(\x27Please select a valid destination region\x27)"

def fuR4Pat : List Char := strL "\n      const fromParam = "

def fuR4Repl : List Char := strL "\n      // Clear form error on valid submission\n      setFormError(\x27\x27);\n\n\n      const fromParam = "

def upS1Pat : List Char := strL "  const [toInput, setToInput] = useState(\x27\x27);\n\n  // Add station to list"

def upS1Repl : List Char := strL "  const [toInput, setToInput] = useState(\x27\x27);\n\n  // Form validation error\n  const [formError, setFormError] = useState(\x27\x27);\n\n  // Add station to list"

def upS2Pat : List Char := strL "    if (type === \x27from\x27) setFromInput(\x27\x27);\n    else setToInput(\x27\x27);\n  \x7d, []);"

def upS2Repl : List Char := strL "    if (type === \x27from\x27) setFromInput(\x27\x27);\n    else setToInput(\x27\x27);\n    // Clear form error when user makes changes\n    if (formError) setFormError(\x27\x27);\n  \x7d, [formError]);"

def upS3Pat : List Char := strL "      [`$\x7btype\x7dStations`]: prev[`$\x7btype\x7dStations`].filter((s) => s !== station),\n    \x7d));\n  \x7d, []);"

def upS3Repl : List Char := strL "      [`$\x7btype\x7dStations`]: prev[`$\x7btype\x7dStations`].filter((s) => s !== station),\n    \x7d));\n    // Clear form error when user makes changes\n    if (formError) setFormError(\x27\x27);\n  \x7d, [formError]);"

def upS4Pat : List Char := strL "  const updateForm = useCallback((key, value) => \x7b\n    setForm((prev) => (\x7b ...prev, [key]: value \x7d));\n  \x7d, []);"

def upS4Repl : List Char := strL "  const updateForm = useCallback((key, value) => \x7b\n    setForm((prev) => (\x7b ...prev, [key]: value \x7d));\n    // Clear form error when user makes changes\n    if (formError) setFormError(\x27\x27);\n  \x7d, [formError]);"

def upS5Pat : List Char := strL "        alert(\x27Please select at least one station for both origin and destination\x27);"

def upS5Repl : List Char := strL "        setFormError(\x27Please select at least one station for both origin and destination\x27);"

def upS6Pat : List Char := strL "      if (!fromLocation || !toLocation) \x7b\n        setFormError(\x27Please select at least one station for both origin and destination\x27);\n        return;\n      \x7d\n\n      try \x7b"

def upS6Repl : List Char := strL "      if (!fromLocation || !toLocation) \x7b\n        setFormError(\x27Please select at least one station for both origin and destination\x27);\n        return;\n      \x7d\n\n      // Clear form error on valid submission\n      setFormError(\x27\x27);\n\n      try \x7b"

def upS7Pat : List Char := strL "        </GlassmorphicCard>\n\n        \x7b/* Error */\x7d"

def upS7Repl : List Char := strL "        </GlassmorphicCard>\n\n        \x7b/* Form Validation Error */\x7d\n        \x7bformError && (\n          <div\n            role=\"alert\"\n            aria-live=\"polite\"\n            className=\"mb-8 p-4 bg-red-500/20 border border-red-500/50 rounded-lg text-red-400\"\n          >\n            <strong>Validation Error:</strong> \x7bformError\x7d\n          </div>\n        )\x7d\n\n        \x7b/* API Error */\x7d"

def upS8Pat : List Char := strL "        \x7berror && (\n          <div className=\"mb-8 p-4 bg-red-500/20 border border-red-500/50 rounded-lg text-red-400\">"

def upS8Repl : List Char := strL "        \x7berror && (\n          <div\n            role=\"alert\"\n            aria-live=\"polite\"\n            className=\"mb-8 p-4 bg-red-500/20 border border-red-500/50 rounded-lg text-red-400\"\n          >"

def upR1Pat : List Char := strL "  \x7d);\n\n  // Get nearby regions"

def upR1Repl : List Char := strL "  \x7d);\n\n  // Form validation error\n  const [formError, setFormError] = useState(\x27\x27);\n\n  // Get nearby regions"

def upR2Pat : List Char := strL "  const updateForm = useCallback((key, value) => \x7b\n    setForm((prev) => (\x7b ...prev, [key]: value \x7d));\n\n    // Reset toRegion when switching to nearby\n    if (key === \x27useNearby\x27 && value) \x7b\n      setForm((prev) => (\x7b ...prev, toRegion: \x27Nearby Regions\x27 \x7d));\n    \x7d\n  \x7d, []);"

def upR2Repl : List Char := strL "  const updateForm = useCallback((key, value) => \x7b\n    setForm((prev) => (\x7b ...prev, [key]: value \x7d));\n    // Clear form error when user makes changes\n    if (formError) setFormError(\x27\x27);\n\n    // Reset toRegion when switching to nearby\n    if (key === \x27useNearby\x27 && value) \x7b\n      setForm((prev) => (\x7b ...prev, toRegion: \x27Nearby Regions\x27 \x7d));\n    \x7d\n  \x7d, [formError]);"

def upR3Pat : List Char := strL "        alert(\x27Please select a valid origin region\x27);"

def upR3Repl : List Char := strL "        setFormError(\x27Please select a valid origin region\x27);"

def upR4Pat : List Char := strL "          alert(\x27Please select a valid destination region\x27);"

def upR4Repl : List Char := strL "          setFormError(\x27Please select a valid destination region\x27);"

def upR5Pat : List Char := strL "      const fromParam = `$\x7bform.fromPreference\x7d-$\x7bfromId\x7d`;"

def upR5Repl : List Char := strL "      // Clear form error on valid submission\n      setFormError(\x27\x27);\n\n      const fromParam = `$\x7bform.fromPreference\x7d-$\x7bfromId\x7d`;"

def upR6Pat : List Char := strL "        </GlassmorphicCard>\n\n        \x7b/* Error */\x7d"

def upR6Repl : List Char := strL "        </GlassmorphicCard>\n\n        \x7b/* Form Validation Error */\x7d\n        \x7bformError && (\n          <div\n            role=\"alert\"\n            aria-live=\"polite\"\n            className=\"mb-8 p-4 bg-red-500/20 border border-red-500/50 rounded-lg text-red-400\"\n          >\n            <strong>Validation Error:</strong> \x7bformError\x7d\n          </div>\n        )\x7d\n\n        \x7b/* API Error */\x7d"

def upR7Pat : List Char := strL "        \x7berror && (\n          <div className=\"mb-8 p-4 bg-red-500/20 border border-red-500/50 rounded-lg text-red-400\">"

def upR7Repl : List Char := strL "        \x7berror && (\n          <div\n            role=\"alert\"\n            aria-live=\"polite\"\n            className=\"mb-8 p-4 bg-red-500/20 border border-red-500/50 rounded-lg text-red-400\"\n          >"

def depDelim : List Char := strL "  \x7d, []);"

def formErrorDep : List Char := strL "  \x7d, [formError]);"

def fuMsg1 : List Char := strL "✓ Updated StationHaulingPage.jsx"

def fuMsg2 : List Char := strL "✓ Updated RegionHaulingPage.jsx"

def fuMsg3 : List Char := strL "\n✅ All changes applied successfully!"

def upMsg1 : List Char := strL "Updated StationHaulingPage.jsx"

def upMsg2 : List Char := strL "Updated RegionHaulingPage.jsx"

def upMsg3 : List Char := strL "All files updated successfully!"


/-! ### The patch rules of the two scripts

Rule functions are named `fu…` (final_update.py) and `up…` (update_pages.py),
with `S` for the StationHaulingPage section and `R` for the RegionHaulingPage
section, numbered by the comment headers in the scripts.  `…Pat`/`…Repl` above
hold the exact literal each Python call searches for and inserts; for the
`re.sub` calls the pattern is a fully escaped (hence literal) regex and the
`…Repl` literal is the replacement template with the capture groups expanded.
The four `…BadPat` literals are `re.sub` patterns that do **not** compile
(`re.error: unbalanced parenthesis` - the `)` after `\[\]);` closes the
group early, leaving the final `)` unmatched), so those calls raise. -/

/-- final_update.py line 9: `re.sub(..., count=1)`, add formError state. -/
def fuS1 (c : List Char) : List Char := listReplaceFirst fuS1Pat fuS1Repl c

/-- final_update.py line 23: `str.replace(..., 1)`, addStation dep array. -/
def fuS2b (c : List Char) : List Char := listReplaceFirst fuS2bPat fuS2bRepl c

/-- final_update.py lines 33-36: fallback after removeStation.  Splits on
`depDelim`; when there are at least 3 parts, rebuilds the buffer as
`parts[0] + parts[2]`.  (The script also appends `formErrorDep` to
`parts[1]`, but that slot is never used in the rebuild - a dead store.) -/
def removeStationFallback (content : List Char) : List Char :=
  let parts := pySplit depDelim content
  if 3 ≤ parts.length then parts.getD 0 [] ++ parts.getD 2 [] else content

/-- final_update.py lines 46-49: fallback after updateForm.  Splits on
`depDelim`; when there are at least 4 parts, rebuilds the buffer as
`parts[0] + parts[1] + "  }, [formError]);" + parts[3]`.  (The append to
`parts[2]` in the script is again a dead store.) -/
def updateFormFallback (content : List Char) : List Char :=
  let parts := pySplit depDelim content
  if 4 ≤ parts.length then
    parts.getD 0 [] ++ parts.getD 1 [] ++ formErrorDep ++ parts.getD 3 []
  else content

/-- final_update.py line 52: `str.replace` (all occurrences), alert to
setFormError. -/
def fuS5 (c : List Char) : List Char := listReplaceAll fuS5Pat fuS5Repl c

/-- final_update.py line 58: `re.sub` without count (all occurrences),
clear error on valid submission. -/
def fuS6 (c : List Char) : List Char := listReplaceAll fuS6Pat fuS6Repl c

/-- final_update.py line 65: `re.sub` without count, insert validation
error UI. -/
def fuS7 (c : List Char) : List Char := listReplaceAll fuS7Pat fuS7Repl c

/-- final_update.py line 86: `re.sub` without count, add ARIA attributes. -/
def fuS8 (c : List Char) : List Char := listReplaceAll fuS8Pat fuS8Repl c

/-- final_update.py line 106: `re.sub(..., count=1)`, region formError
state. -/
def fuR1 (c : List Char) : List Char := listReplaceFirst fuR1Pat fuR1Repl c

/-- final_update.py line 114: `re.sub(..., count=1)`, region updateForm. -/
def fuR2a (c : List Char) : List Char := listReplaceFirst fuR2aPat fuR2aRepl c

/-- final_update.py line 126: `str.replace(..., 1)`, region updateForm dep
array. -/
def fuR2c (c : List Char) : List Char := listReplaceFirst fuR2cPat fuR2cRepl c

/-- final_update.py lines 128-133: region fallback.  Splits on `depDelim`;
when there are at least 2 parts, appends `formErrorDep` to `parts[0]` and
rejoins the remaining parts with the delimiter. -/
def regionDepFallback (content : List Char) : List Char :=
  let parts := pySplit depDelim content
  if 2 ≤ parts.length then
    parts.getD 0 [] ++ formErrorDep ++ joinWith depDelim (parts.drop 1)
  else content

/-- final_update.py line 136: `str.replace` (all), region origin alert. -/
def fuR3a (c : List Char) : List Char := listReplaceAll fuR3aPat fuR3aRepl c

/-- final_update.py line 140: `str.replace` (all), region destination
alert. -/
def fuR3b (c : List Char) : List Char := listReplaceAll fuR3bPat fuR3bRepl c

/-- final_update.py line 146: `re.sub(..., count=1)`, region clear error on
submission. -/
def fuR4 (c : List Char) : List Char := listReplaceFirst fuR4Pat fuR4Repl c

/-- final_update.py line 154: `re.sub` without count, same pattern and
replacement as `fuS7`. -/
def fuR5 (c : List Char) : List Char := listReplaceAll fuS7Pat fuS7Repl c

/-- final_update.py line 175: `re.sub` without count, same pattern and
replacement as `fuS8`. -/
def fuR6 (c : List Char) : List Char := listReplaceAll fuS8Pat fuS8Repl c

/-- update_pages.py line 9: `str.replace` (all), add formError state. -/
def upS1 (c : List Char) : List Char := listReplaceAll upS1Pat upS1Repl c

/-- update_pages.py line 15. -/
def upS2 (c : List Char) : List Char := listReplaceAll upS2Pat upS2Repl c

/-- update_pages.py line 21. -/
def upS3 (c : List Char) : List Char := listReplaceAll upS3Pat upS3Repl c

/-- update_pages.py line 27. -/
def upS4 (c : List Char) : List Char := listReplaceAll upS4Pat upS4Repl c

/-- update_pages.py line 33: alert to setFormError. -/
def upS5 (c : List Char) : List Char := listReplaceAll upS5Pat upS5Repl c

/-- update_pages.py line 39: clear error on valid submission. -/
def upS6 (c : List Char) : List Char := listReplaceAll upS6Pat upS6Repl c

/-- update_pages.py line 45: insert validation error UI. -/
def upS7 (c : List Char) : List Char := listReplaceAll upS7Pat upS7Repl c

/-- update_pages.py line 64: add ARIA attributes. -/
def upS8 (c : List Char) : List Char := listReplaceAll upS8Pat upS8Repl c

/-- update_pages.py line 79. -/
def upR1 (c : List Char) : List Char := listReplaceAll upR1Pat upR1Repl c

/-- update_pages.py line 85. -/
def upR2 (c : List Char) : List Char := listReplaceAll upR2Pat upR2Repl c

/-- update_pages.py line 91. -/
def upR3 (c : List Char) : List Char := listReplaceAll upR3Pat upR3Repl c

/-- update_pages.py line 95. -/
def upR4 (c : List Char) : List Char := listReplaceAll upR4Pat upR4Repl c

/-- update_pages.py line 101. -/
def upR5 (c : List Char) : List Char := listReplaceAll upR5Pat upR5Repl c

/-- update_pages.py line 107. -/
def upR6 (c : List Char) : List Char := listReplaceAll upR6Pat upR6Repl c

/-- update_pages.py line 126. -/
def upR7 (c : List Char) : List Char := listReplaceAll upR7Pat upR7Repl c

/-- The rules of update_pages.py for StationHaulingPage.jsx, in program
order. -/
def upStationRules : List (List Char → List Char) :=
  [upS1, upS2, upS3, upS4, upS5, upS6, upS7, upS8]

/-- The rules of update_pages.py for RegionHaulingPage.jsx, in program
order. -/
def upRegionRules : List (List Char → List Char) :=
  [upR1, upR2, upR3, upR4, upR5, upR6, upR7]

/-- Apply a list of patch rules in order: each rule transforms the buffer
produced by the previous one. -/
def applyRules (rules : List (List Char → List Char)) (content : List Char) : List Char :=
  rules.foldl (fun buf r => r buf) content

/-! ### Script execution: files, buffer, output, abort -/

/-- The two files the scripts patch (contents of
src/pages/StationHaulingPage.jsx and src/pages/RegionHaulingPage.jsx). -/
structure FS where
  station : List Char
  region : List Char
deriving DecidableEq

/-- Which file a read or write statement touches. -/
inductive Target where
  | station
  | region

/-- One Python statement of a script as it affects the buffer, the files on
disk, and standard output.

`reSubMalformed pat` is a `re.sub` call whose pattern `pat` does not
compile: Python raises `re.error` when the call executes, independent of
the buffer, and neither script catches exceptions, so the run aborts. -/
inductive Step where
  | readF : Target → Step
  | rule : (List Char → List Char) → Step
  | reSubMalformed : List Char → Step
  | writeF : Target → Step
  | printMsg : List Char → Step

/-- Does this statement write a file? -/
def Step.isWrite : Step → Bool
  | .writeF _ => true
  | _ => false

/-- In-memory buffer, on-disk files, and accumulated standard output. -/
structure ScriptState where
  buf : List Char
  files : FS
  out : List (List Char)
deriving DecidableEq

def getFile (fs : FS) : Target → List Char
  | .station => fs.station
  | .region => fs.region

def setFile (fs : FS) : Target → List Char → FS
  | .station, c => { fs with station := c }
  | .region, c => { fs with region := c }

/-- Run the remaining statements in order.  A malformed `re.sub` raises;
nothing catches the exception, so execution stops there.  The `Bool` is
`true` iff the script ran to completion (Python exits 0 exactly then). -/
def execSteps : ScriptState → List Step → ScriptState × Bool
  | st, [] => (st, true)
  | st, .readF t :: rest => execSteps { st with buf := getFile st.files t } rest
  | st, .rule f :: rest => execSteps { st with buf := f st.buf } rest
  | st, .reSubMalformed _ :: _ => (st, false)
  | st, .writeF t :: rest => execSteps { st with files := setFile st.files t st.buf } rest
  | st, .printMsg m :: rest => execSteps { st with out := st.out ++ [m] } rest

/-- Process exit status after a run: 0 on normal completion, nonzero (1,
the interpreter status for an uncaught exception) otherwise. -/
def exitCode (completed : Bool) : Nat := if completed then 0 else 1

/-- src/update_pages.py, statement by statement: read the station page,
apply its eight rules, write it, print; then the same for the region page
and the two final prints.  Every operation is a total `str.replace`. -/
def updatePagesSteps : List Step :=
  [Step.readF Target.station] ++ upStationRules.map Step.rule ++
    [Step.writeF Target.station, Step.printMsg upMsg1] ++
    [Step.readF Target.region] ++ upRegionRules.map Step.rule ++
    [Step.writeF Target.region, Step.printMsg upMsg2, Step.printMsg upMsg3]

/-- src/final_update.py, statement by statement.  The `re.sub` calls at
lines 17, 26, 39 and 120 carry patterns that do not compile (unbalanced
parenthesis), so a real run aborts at the line-17 call: everything from
`fuS2b` on is unreachable, no file is written and nothing is printed. -/
def finalUpdateSteps : List Step :=
  [Step.readF Target.station,
   Step.rule fuS1,
   Step.reSubMalformed fuS2aBadPat,
   Step.rule fuS2b,
   Step.reSubMalformed fuS3aBadPat,
   Step.rule removeStationFallback,
   Step.reSubMalformed fuS4aBadPat,
   Step.rule updateFormFallback,
   Step.rule fuS5,
   Step.rule fuS6,
   Step.rule fuS7,
   Step.rule fuS8,
   Step.writeF Target.station,
   Step.printMsg fuMsg1,
   Step.readF Target.region,
   Step.rule fuR1,
   Step.rule fuR2a,
   Step.reSubMalformed fuR2bBadPat,
   Step.rule fuR2c,
   Step.rule regionDepFallback,
   Step.rule fuR3a,
   Step.rule fuR3b,
   Step.rule fuR4,
   Step.rule fuR5,
   Step.rule fuR6,
   Step.writeF Target.region,
   Step.printMsg fuMsg2,
   Step.printMsg fuMsg3]

/-- Initial interpreter state for a run over the given files. -/
def initState (fs : FS) : ScriptState := { buf := [], files := fs, out := [] }

/-- A full run of src/update_pages.py. -/
def runUpdatePages (fs : FS) : ScriptState × Bool :=
  execSteps (initState fs) updatePagesSteps

/-- A full run of src/final_update.py. -/
def runFinalUpdate (fs : FS) : ScriptState × Bool :=
  execSteps (initState fs) finalUpdateSteps

/-- Modelled from the spec: the scripts have no notion of a required rule or
an expected occurrence count; the data model of the spec (section 3) attaches
`required` and `expected_occurrences` to each PatchRule and its section 8
scenarios mark the formError-insertion rule `required=true` with
`expected_occurrences=1`. -/
def formErrorRuleRequired : Bool := true

/-- Modelled from the spec: `expected_occurrences` of the formError-insertion
rule (spec sections 3 and 8); the scripts themselves never count matches. -/
def formErrorRuleExpectedOccurrences : Nat := 1

/-- The inserted formError state declaration (used to detect duplicate
insertion). -/
def formErrorDecl : List Char := strL "  const [formError, setFormError] = useState(\x27\x27);"

/-- The comment line each formError-insertion rule adds. -/
def formValidationComment : List Char := strL "// Form validation error"

/-- A submit-handler fragment as it looks before any patch: the alert call
that update_pages.py rule 5 rewrites into the setFormError call that its
rule 6 then matches. -/
def c4Input : List Char := strL "      if (!fromLocation || !toLocation) \x7b\n        alert(\x27Please select at least one station for both origin and destination\x27);\n        return;\n      \x7d\n\n      try \x7b"

/-- A buffer containing three occurrences of the dependency-array delimiter,
exercising both final_update.py fallback branches. -/
def c2SplitInput : List Char := strL "A  \x7d, []);B  \x7d, []);C  \x7d, []);D"

/-! ### Structural lemmas about the scanning primitives -/

theorem matchesAt_append_drop {pat s : List Char} (h : matchesAt pat s = true) :
    pat ++ List.drop pat.length s = s := by
  induction pat generalizing s with
  | nil => simp
  | cons p ps ih =>
    cases s with
    | nil => simp [matchesAt] at h
    | cons c cs =>
      simp only [matchesAt, Bool.and_eq_true, beq_iff_eq] at h
      obtain ⟨rfl, h2⟩ := h
      simpa [List.length_cons, List.drop_succ_cons] using ih h2

theorem pySplitAux_ne_nil (sep : List Char) (fuel : Nat) (s : List Char) :
    pySplitAux sep fuel s ≠ [] := by
  match fuel, s with
  | _, [] => simp [pySplitAux]
  | 0, c :: rest => simp [pySplitAux]
  | fuel + 1, c :: rest =>
    rw [pySplitAux]
    split
    · simp
    · match pySplitAux sep fuel rest with
      | [] => simp [consHead]
      | p :: ps => simp [consHead]

theorem joinWith_consHead (sep : List Char) (c : Char) (l : List (List Char)) :
    joinWith sep (consHead c l) = c :: joinWith sep l := by
  match l with
  | [] => simp [consHead, joinWith]
  | [p] => simp [consHead, joinWith]
  | p :: q :: ps => simp [consHead, joinWith]

theorem joinWith_cons_of_ne_nil (sep x : List Char) {l : List (List Char)}
    (h : l ≠ []) : joinWith sep (x :: l) = x ++ sep ++ joinWith sep l := by
  match l with
  | [] => exact absurd rfl h
  | q :: ps => simp [joinWith]

/-- Joining the parts of a split with the separator restores the string. -/
theorem joinWith_pySplitAux (sep : List Char) (fuel : Nat) (s : List Char) :
    joinWith sep (pySplitAux sep fuel s) = s := by
  induction fuel generalizing s with
  | zero =>
    cases s with
    | nil => simp [pySplitAux, joinWith]
    | cons c rest => simp [pySplitAux, joinWith]
  | succ fuel ih =>
    cases s with
    | nil => simp [pySplitAux, joinWith]
    | cons c rest =>
      rw [pySplitAux]
      split
      · rename_i hcond
        rw [joinWith_cons_of_ne_nil sep [] (pySplitAux_ne_nil sep fuel _), ih]
        simp only [Bool.and_eq_true] at hcond
        simpa using matchesAt_append_drop hcond.2
      · rw [joinWith_consHead, ih]

theorem joinWith_pySplit (sep s : List Char) :
    joinWith sep (pySplit sep s) = s :=
  joinWith_pySplitAux sep s.length s

/-- The number of split parts is one more than the occurrence count. -/
theorem pySplitAux_length (sep : List Char) (fuel : Nat) (s : List Char) :
    (pySplitAux sep fuel s).length = countOccAux sep fuel s + 1 := by
  induction fuel generalizing s with
  | zero =>
    cases s with
    | nil => simp [pySplitAux, countOccAux]
    | cons c rest => simp [pySplitAux, countOccAux]
  | succ fuel ih =>
    cases s with
    | nil => simp [pySplitAux, countOccAux]
    | cons c rest =>
      rw [pySplitAux, countOccAux]
      split
      · simp [ih]
      · have hne := pySplitAux_ne_nil sep fuel rest
        match hsp : pySplitAux sep fuel rest with
        | [] => exact absurd hsp hne
        | p :: ps =>
          have := ih rest
          rw [hsp] at this
          simpa [consHead] using this

theorem pySplit_length (sep s : List Char) :
    (pySplit sep s).length = countOcc sep s + 1 :=
  pySplitAux_length sep s.length s

/-- Replace-all is exactly: split on the pattern, join with the replacement.
This is the sense in which `str.replace` / count-less `re.sub` replace every
non-overlapping occurrence. -/
theorem listReplaceAllAux_eq_join (pat repl : List Char) (fuel : Nat) (s : List Char) :
    listReplaceAllAux pat repl fuel s = joinWith repl (pySplitAux pat fuel s) := by
  induction fuel generalizing s with
  | zero =>
    cases s with
    | nil => simp [listReplaceAllAux, pySplitAux, joinWith]
    | cons c rest => simp [listReplaceAllAux, pySplitAux, joinWith]
  | succ fuel ih =>
    cases s with
    | nil => simp [listReplaceAllAux, pySplitAux, joinWith]
    | cons c rest =>
      rw [listReplaceAllAux, pySplitAux]
      split
      · rw [joinWith_cons_of_ne_nil repl [] (pySplitAux_ne_nil pat fuel _), ih]
        simp
      · rw [joinWith_consHead, ih]

theorem listReplaceAll_eq_join (pat repl s : List Char) :
    listReplaceAll pat repl s = joinWith repl (pySplit pat s) :=
  listReplaceAllAux_eq_join pat repl s.length s

/-- Replace-first replaces exactly the leftmost occurrence: the first split
part, then the replacement, then the rest of the string joined back with the
pattern itself. -/
theorem listReplaceFirstAux_eq (pat repl : List Char) (fuel : Nat) (s : List Char) :
    listReplaceFirstAux pat repl fuel s =
      match pySplitAux pat fuel s with
      | p :: q :: ps => p ++ repl ++ joinWith pat (q :: ps)
      | _ => s := by
  induction fuel generalizing s with
  | zero =>
    cases s with
    | nil => simp [listReplaceFirstAux, pySplitAux]
    | cons c rest => simp [listReplaceFirstAux, pySplitAux]
  | succ fuel ih =>
    cases s with
    | nil => simp [listReplaceFirstAux, pySplitAux]
    | cons c rest =>
      rw [listReplaceFirstAux, pySplitAux]
      split
      · rename_i hcond
        have hne := pySplitAux_ne_nil pat fuel (List.drop pat.length (c :: rest))
        match hsp : pySplitAux pat fuel (List.drop pat.length (c :: rest)) with
        | [] => exact absurd hsp hne
        | q :: ps =>
          have hj : joinWith pat (q :: ps) = List.drop pat.length (c :: rest) := by
            have := joinWith_pySplitAux pat fuel (List.drop pat.length (c :: rest))
            rwa [hsp] at this
          simp [hj]
      · have hne := pySplitAux_ne_nil pat fuel rest
        match hsp : pySplitAux pat fuel rest with
        | [] => exact absurd hsp hne
        | [p] =>
          have := ih rest
          rw [hsp] at this
          simp only at this
          simp [consHead, this]
        | p :: q :: ps =>
          have := ih rest
          rw [hsp] at this
          simp only at this
          simp [consHead, this]

/-- A string with no occurrence of the pattern splits into a single part:
itself. -/
theorem pySplit_of_countOcc_zero {pat s : List Char} (h : countOcc pat s = 0) :
    pySplit pat s = [s] := by
  have hlen : (pySplit pat s).length = 1 := by
    rw [pySplit_length, h]
  match hsp : pySplit pat s with
  | [] => rw [hsp] at hlen; simp at hlen
  | [p] =>
    have := joinWith_pySplit pat s
    rw [hsp] at this
    simp [joinWith] at this
    rw [this]
  | p :: q :: ps => rw [hsp] at hlen; simp at hlen

/-- Zero occurrences: replace-all leaves the string unchanged. -/
theorem listReplaceAll_of_countOcc_zero {pat s : List Char} (repl : List Char)
    (h : countOcc pat s = 0) : listReplaceAll pat repl s = s := by
  rw [listReplaceAll_eq_join, pySplit_of_countOcc_zero h]
  simp [joinWith]

/-- Zero occurrences: replace-first leaves the string unchanged. -/
theorem listReplaceFirst_of_countOcc_zero {pat s : List Char} (repl : List Char)
    (h : countOcc pat s = 0) : listReplaceFirst pat repl s = s := by
  have := listReplaceFirstAux_eq pat repl s.length s
  rw [listReplaceFirst, this]
  rw [show pySplitAux pat s.length s = pySplit pat s from rfl,
    pySplit_of_countOcc_zero h]

/-- A single split part with no occurrence of the pattern keeps the join
at least as long as that part. -/
theorem joinWith_head_length_le (sep p : List Char) (ps : List (List Char)) :
    p.length ≤ (joinWith sep (p :: ps)).length := by
  match ps with
  | [] => simp [joinWith]
  | q :: qs => simp [joinWith]

/-! ### Lemmas about script execution -/

theorem execSteps_map_rule (rules : List (List Char → List Char)) (st : ScriptState) :
    execSteps st (rules.map Step.rule) =
      ({ st with buf := applyRules rules st.buf }, true) := by
  induction rules generalizing st with
  | nil => simp [execSteps, applyRules]
  | cons r rs ih => simp [execSteps, applyRules, ih]

theorem execSteps_files_no_write (steps : List Step) (st : ScriptState)
    (h : ∀ s ∈ steps, Step.isWrite s = false) :
    (execSteps st steps).1.files = st.files := by
  induction steps generalizing st with
  | nil => rfl
  | cons s rest ih =>
    have hrest : ∀ x ∈ rest, Step.isWrite x = false :=
      fun x hx => h x (List.mem_cons_of_mem s hx)
    cases s with
    | readF t => simpa [execSteps] using ih _ hrest
    | rule f => simpa [execSteps] using ih _ hrest
    | reSubMalformed p => simp [execSteps]
    | writeF t =>
      have := h _ (List.mem_cons_self _ _)
      simp [Step.isWrite] at this
    | printMsg m => simpa [execSteps] using ih _ hrest

/-- Closed form of a src/update_pages.py run: every statement executes, both
files end up holding their fully transformed buffers, and the three success
messages are printed. -/
theorem runUpdatePages_eq (fs : FS) :
    runUpdatePages fs =
      ({ buf := applyRules upRegionRules fs.region,
         files := { station := applyRules upStationRules fs.station,
                    region := applyRules upRegionRules fs.region },
         out := [upMsg1, upMsg2, upMsg3] }, true) := by
  simp [runUpdatePages, updatePagesSteps, initState, execSteps, getFile, setFile,
    upStationRules, upRegionRules, applyRules]

/-- Closed form of a src/final_update.py run: the formError-state rule runs
in memory, then the malformed `re.sub` at line 17 raises and the script
aborts - no file is written, nothing is printed, exit is abnormal. -/
theorem runFinalUpdate_eq (fs : FS) :
    runFinalUpdate fs = ({ buf := fuS1 fs.station, files := fs, out := [] }, false) := by
  simp [runFinalUpdate, finalUpdateSteps, initState, execSteps, getFile]

/-! ### The claims -/

/-- C1, counterexample.  The final_update.py formError-insertion rule
(line 9, `re.sub(..., count=1)`) is not a no-op on its own output: its
pattern - the `toInput` line followed by a newline - still occurs in the
patched text, so a second run finds one occurrence, changes the buffer
again, and inserts a second formError declaration. -/
theorem formError_rule_rematches_own_output :
    fuS1 fuS1Pat = fuS1Repl ∧
    countOcc fuS1Pat (fuS1 fuS1Pat) = 1 ∧
    countOcc formErrorDecl (fuS1 fuS1Pat) = 1 ∧
    countOcc formErrorDecl (fuS1 (fuS1 fuS1Pat)) = 2 ∧
    fuS1 (fuS1 fuS1Pat) ≠ fuS1 fuS1Pat :=
  ⟨by decide, by decide, by decide, by decide, by decide⟩

/-- C1, amended.  A rule whose matcher finds zero occurrences leaves the
buffer unchanged, so a second run is a no-op exactly for such rules;
the literal formError-insertion rule of update_pages.py is one (its search text
no longer occurs in its own output), but the regex version in final_update.py
still matches its own output once and a second application inserts a
duplicate formError declaration. -/
theorem formError_rule_second_run :
    (∀ pat repl s : List Char, countOcc pat s = 0 →
        listReplaceAll pat repl s = s ∧ listReplaceFirst pat repl s = s) ∧
    countOcc upS1Pat (upS1 upS1Pat) = 0 ∧
    upS1 (upS1 upS1Pat) = upS1 upS1Pat ∧
    countOcc fuS1Pat (fuS1 fuS1Pat) = 1 ∧
    countOcc formErrorDecl (fuS1 (fuS1 fuS1Pat)) = 2 :=
  ⟨fun _ repl _ h =>
      ⟨listReplaceAll_of_countOcc_zero repl h, listReplaceFirst_of_countOcc_zero repl h⟩,
    by decide, by decide, by decide, by decide⟩

/-- C1, witness for the amended theorem at a concrete zero-occurrence
input. -/
theorem formError_rule_second_run_witness :
    listReplaceAll (strL "yy") (strL "p") (strL "cd") = strL "cd" :=
  (formError_rule_second_run.1 (strL "yy") (strL "p") (strL "cd") (by decide)).1

/-- C2: when the dependency-array delimiter occurs at least three times,
the removeStation fallback of final_update.py rebuilds the buffer as
`parts[0] + parts[2]` and its updateForm fallback as
`parts[0] + parts[1] + "  }, [formError]);" + parts[3]`; the original
buffer is the parts rejoined with the delimiter, so both fallbacks delete
the listed segments and delimiters and strictly shrink the text. -/
theorem fallback_splits_delete_segments (content : List Char)
    (h : 3 ≤ countOcc depDelim content) :
    removeStationFallback content =
      (pySplit depDelim content).getD 0 [] ++ (pySplit depDelim content).getD 2 [] ∧
    updateFormFallback content =
      (pySplit depDelim content).getD 0 [] ++ (pySplit depDelim content).getD 1 [] ++
        formErrorDep ++ (pySplit depDelim content).getD 3 [] ∧
    content =
      (pySplit depDelim content).getD 0 [] ++ depDelim ++
        (pySplit depDelim content).getD 1 [] ++ depDelim ++
        (pySplit depDelim content).getD 2 [] ++ depDelim ++
        joinWith depDelim ((pySplit depDelim content).drop 3) ∧
    (removeStationFallback content).length < content.length ∧
    (updateFormFallback content).length < content.length := by
  have hlen : 4 ≤ (pySplit depDelim content).length := by
    rw [pySplit_length]; omega
  rcases hsp : pySplit depDelim content with _ | ⟨p0, _ | ⟨p1, _ | ⟨p2, _ | ⟨p3, tl⟩⟩⟩⟩ <;>
    rw [hsp] at hlen <;> try simp at hlen
  have hjoin := joinWith_pySplit depDelim content
  rw [hsp] at hjoin
  simp only [joinWith] at hjoin
  have hdl : depDelim.length = 9 := by decide
  have hfl : formErrorDep.length = 18 := by decide
  have hcl : content.length =
      p0.length + p1.length + p2.length + (joinWith depDelim (p3 :: tl)).length + 27 := by
    have := congrArg List.length hjoin
    simp only [List.length_append] at this
    omega
  have hj3 := joinWith_head_length_le depDelim p3 tl
  have hrem : removeStationFallback content = p0 ++ p2 := by
    simp [removeStationFallback, hsp]
  have hupd : updateFormFallback content = p0 ++ p1 ++ formErrorDep ++ p3 := by
    simp [updateFormFallback, hsp]
  refine ⟨by simpa [hsp] using hrem, by simpa [hsp] using hupd, ?_, ?_, ?_⟩
  · simp only [List.getD_cons_zero, List.getD_cons_succ, List.drop_succ_cons,
      List.drop_zero]
    rw [← hjoin]
    simp [List.append_assoc]
  · rw [hrem]
    simp only [List.length_append]
    omega
  · rw [hupd]
    simp only [List.length_append]
    omega

/-- C2, witness: a buffer with three delimiter occurrences. -/
theorem fallback_splits_delete_segments_witness :
    3 ≤ countOcc depDelim c2SplitInput ∧
    removeStationFallback c2SplitInput =
      (pySplit depDelim c2SplitInput).getD 0 [] ++ (pySplit depDelim c2SplitInput).getD 2 [] ∧
    (removeStationFallback c2SplitInput).length < c2SplitInput.length :=
  ⟨by decide, (fallback_splits_delete_segments c2SplitInput (by decide)).1,
    (fallback_splits_delete_segments c2SplitInput (by decide)).2.2.2.1⟩

/-- C5: a rule whose matcher finds zero occurrences leaves the buffer
exactly as it was - this holds for the replace-all rules, the
replace-first rules, and all three split-based fallback branches (whose
split then yields a single part, below the rebuild thresholds). -/
theorem zero_match_leaves_buffer (pat repl s : List Char) :
    (countOcc pat s = 0 →
        listReplaceAll pat repl s = s ∧ listReplaceFirst pat repl s = s) ∧
    (countOcc depDelim s = 0 →
        removeStationFallback s = s ∧ updateFormFallback s = s ∧
          regionDepFallback s = s) := by
  constructor
  · intro h
    exact ⟨listReplaceAll_of_countOcc_zero repl h, listReplaceFirst_of_countOcc_zero repl h⟩
  · intro h
    have hsp := pySplit_of_countOcc_zero h
    exact ⟨by simp [removeStationFallback, hsp], by simp [updateFormFallback, hsp],
      by simp [regionDepFallback, hsp]⟩

/-- C5, witness at a concrete buffer matched by none of the patterns. -/
theorem zero_match_leaves_buffer_witness :
    listReplaceAll (strL "zz") (strL "q") (strL "ab") = strL "ab" ∧
    removeStationFallback (strL "ab") = strL "ab" :=
  ⟨((zero_match_leaves_buffer (strL "zz") (strL "q") (strL "ab")).1 (by decide)).1,
    ((zero_match_leaves_buffer (strL "zz") (strL "q") (strL "ab")).2 (by decide)).1⟩

/-- C6, counterexample.  The formError rule of final_update.py uses
`re.sub(..., count=1)`: on a buffer with two occurrences it replaces only
the first (one inserted comment, result differs from the replace-all
result), so "replaces all non-overlapping matches" fails on the cited
code. -/
theorem count_one_rule_replaces_only_first :
    countOcc fuS1Pat (fuS1Pat ++ fuS1Pat) = 2 ∧
    fuS1 (fuS1Pat ++ fuS1Pat) = fuS1Repl ++ fuS1Pat ∧
    countOcc formValidationComment (fuS1 (fuS1Pat ++ fuS1Pat)) = 1 ∧
    fuS1 (fuS1Pat ++ fuS1Pat) ≠ listReplaceAll fuS1Pat fuS1Repl (fuS1Pat ++ fuS1Pat) :=
  ⟨by decide, by decide, by decide, by decide⟩

/-- C6, amended.  The count-less `str.replace`/`re.sub` rules do replace
every non-overlapping match (replace-all is split-on-pattern joined with
the replacement), but the `count=1` rules of final_update.py replace only
the leftmost match. -/
theorem replace_semantics_all_vs_first :
    (∀ pat repl s : List Char, listReplaceAll pat repl s = joinWith repl (pySplit pat s)) ∧
    countOcc fuS1Pat (fuS1Pat ++ fuS1Pat) = 2 ∧
    listReplaceAll fuS1Pat fuS1Repl (fuS1Pat ++ fuS1Pat) = fuS1Repl ++ fuS1Repl ∧
    fuS1 (fuS1Pat ++ fuS1Pat) = fuS1Repl ++ fuS1Pat :=
  ⟨listReplaceAll_eq_join, by decide, by decide, by decide⟩

/-- C3: executing any write-free prefix of either script leaves both files
untouched; in update_pages.py each write statement sits after all of that
rules of that file (station write at index 9 after its 8 rules, region write at
index 19 after its 7 rules), the final_update.py station write at index 12
after all 11 station-section statements; a completed update_pages.py run
writes exactly the fully transformed buffers, and final_update.py - which
aborts before its first write - leaves the disk exactly as it found it.
Writes are modelled as atomic whole-file stores. -/
theorem writes_follow_all_rules :
    (∀ (st : ScriptState) (p q : List Step), updatePagesSteps = p ++ q →
        (∀ s ∈ p, Step.isWrite s = false) → (execSteps st p).1.files = st.files) ∧
    (∀ (st : ScriptState) (p q : List Step), finalUpdateSteps = p ++ q →
        (∀ s ∈ p, Step.isWrite s = false) → (execSteps st p).1.files = st.files) ∧
    (updatePagesSteps.take 9).all (fun s => !Step.isWrite s) = true ∧
    updatePagesSteps.getD 9 (Step.printMsg []) = Step.writeF Target.station ∧
    ((updatePagesSteps.drop 10).take 9).all (fun s => !Step.isWrite s) = true ∧
    updatePagesSteps.getD 19 (Step.printMsg []) = Step.writeF Target.region ∧
    (finalUpdateSteps.take 12).all (fun s => !Step.isWrite s) = true ∧
    finalUpdateSteps.getD 12 (Step.printMsg []) = Step.writeF Target.station ∧
    (∀ fs : FS, (runUpdatePages fs).1.files =
        { station := applyRules upStationRules fs.station,
          region := applyRules upRegionRules fs.region }) ∧
    (∀ fs : FS, (runFinalUpdate fs).1.files = fs) := by
  refine ⟨fun st p _ _ hp => execSteps_files_no_write p st hp,
    fun st p _ _ hp => execSteps_files_no_write p st hp,
    rfl, rfl, rfl, rfl, rfl, rfl, fun fs => ?_, fun fs => ?_⟩
  · rw [runUpdatePages_eq]
  · rw [runFinalUpdate_eq]

/-- C3, witness: the write-free prefix of update_pages.py up to and
including its eighth station rule leaves the files unchanged. -/
theorem writes_follow_all_rules_witness :
    (execSteps { buf := [], files := { station := strL "a", region := strL "b" }, out := [] }
        ([Step.readF Target.station] ++ upStationRules.map Step.rule)).1.files =
      { station := strL "a", region := strL "b" } :=
  writes_follow_all_rules.1 _
    ([Step.readF Target.station] ++ upStationRules.map Step.rule)
    ([Step.writeF Target.station, Step.printMsg upMsg1] ++ [Step.readF Target.region] ++
      upRegionRules.map Step.rule ++
      [Step.writeF Target.region, Step.printMsg upMsg2, Step.printMsg upMsg3])
    rfl (by decide)

/-- C4: rules compose sequentially - appending a rule to a pipeline applies
it to the buffer the earlier rules produced - and concretely in
update_pages.py the submit-handler matcher of rule 6 matches text that
exists only because rule 5 rewrote the alert call: on `c4Input` it has
zero occurrences, after rules 1-5 exactly one, and rule 6 then changes
the buffer. -/
theorem rules_compose_sequentially :
    (∀ (rules : List (List Char → List Char)) (r : List Char → List Char) (c : List Char),
        applyRules (rules ++ [r]) c = r (applyRules rules c)) ∧
    countOcc upS6Pat c4Input = 0 ∧
    applyRules [upS1, upS2, upS3, upS4, upS5] c4Input = upS6Pat ∧
    countOcc upS6Pat (applyRules [upS1, upS2, upS3, upS4, upS5] c4Input) = 1 ∧
    applyRules [upS1, upS2, upS3, upS4, upS5, upS6] c4Input = upS6Repl ∧
    upS6Repl ≠ upS6Pat := by
  refine ⟨fun rules r c => ?_, by decide, by decide, by decide, by decide, by decide⟩
  simp [applyRules]

/-- C7, counterexample.  On a file where the (per the spec, required)
formError-insertion rule finds zero occurrences, update_pages.py still
completes and exits 0; and final_update.py exits 1 even on input its first
rule does match, because the malformed pattern raises regardless - neither
exit code tracks rule outcomes. -/
theorem exit_code_ignores_rule_outcomes :
    formErrorRuleRequired = true ∧
    countOcc upS1Pat (strL "x") = 0 ∧
    exitCode (runUpdatePages { station := strL "x", region := strL "x" }).2 = 0 ∧
    countOcc fuS1Pat fuS1Pat = 1 ∧
    exitCode (runFinalUpdate { station := fuS1Pat, region := strL "x" }).2 = 1 :=
  ⟨rfl, by decide, by decide, by decide, by decide⟩

/-- C7, amended.  The exit codes are constants of each script, independent
of every rule outcome: update_pages.py always completes and exits 0,
final_update.py always aborts on its line-17 malformed `re.sub` and exits
1. -/
theorem exit_codes_constant (fs : FS) :
    exitCode (runUpdatePages fs).2 = 0 ∧ exitCode (runFinalUpdate fs).2 = 1 := by
  rw [runUpdatePages_eq, runFinalUpdate_eq]
  exact ⟨rfl, rfl⟩

/-- C8, counterexample.  Two runs whose formError rule finds 0 and 2
occurrences produce identical standard output, so the actual count of a
rule with `expected_occurrences = 1` is never surfaced; final_update.py
prints nothing at all before aborting. -/
theorem report_masks_occurrence_counts :
    formErrorRuleExpectedOccurrences = 1 ∧
    countOcc upS1Pat (strL "x") = 0 ∧
    countOcc upS1Pat (upS1Pat ++ upS1Pat) = 2 ∧
    (runUpdatePages { station := strL "x", region := strL "x" }).1.out =
      (runUpdatePages { station := upS1Pat ++ upS1Pat, region := strL "x" }).1.out ∧
    (runFinalUpdate { station := strL "x", region := strL "x" }).1.out = [] :=
  ⟨rfl, by decide, by decide, by decide, by decide⟩

/-- C8, amended.  The report is a constant: update_pages.py prints the same
three fixed success lines for every input, and final_update.py prints
nothing, so no occurrence count is ever surfaced. -/
theorem report_output_constant (fs1 fs2 : FS) :
    (runUpdatePages fs1).1.out = (runUpdatePages fs2).1.out ∧
    (runUpdatePages fs1).1.out = [upMsg1, upMsg2, upMsg3] ∧
    (runFinalUpdate fs1).1.out = [] := by
  rw [runUpdatePages_eq, runUpdatePages_eq, runFinalUpdate_eq]
  exact ⟨rfl, rfl, rfl⟩

/-- C9: the pipelines and both script runs are deterministic - equal
inputs give equal final texts and equal run results. -/
theorem pipeline_deterministic (rules : List (List Char → List Char))
    (c1 c2 : List Char) (fs1 fs2 : FS) (hc : c1 = c2) (hfs : fs1 = fs2) :
    applyRules rules c1 = applyRules rules c2 ∧
    runUpdatePages fs1 = runUpdatePages fs2 ∧
    runFinalUpdate fs1 = runFinalUpdate fs2 := by
  subst hc
  subst hfs
  exact ⟨rfl, rfl, rfl⟩

/-- C9, witness at concrete equal inputs. -/
theorem pipeline_deterministic_witness :
    applyRules upStationRules (strL "x") = applyRules upStationRules (strL "x") :=
  (pipeline_deterministic upStationRules (strL "x") (strL "x")
    { station := strL "x", region := strL "x" }
    { station := strL "x", region := strL "x" } rfl rfl).1

/-- C10, counterexample.  final_update.py neither writes nor prints on any
run: on a station file its first rule even matches, the run still aborts
(completed = false) with the disk untouched and no output, so "both
scripts overwrite each target file and print success unconditionally" is
false. -/
theorem final_update_never_writes_or_prints :
    countOcc fuS1Pat fuS1Pat = 1 ∧
    (runFinalUpdate { station := fuS1Pat, region := strL "r" }).1.files =
      { station := fuS1Pat, region := strL "r" } ∧
    (runFinalUpdate { station := fuS1Pat, region := strL "r" }).1.out = [] ∧
    (runFinalUpdate { station := fuS1Pat, region := strL "r" }).2 = false :=
  ⟨by decide, by decide, by decide, by decide⟩

/-- C10, amended.  update_pages.py does write both files and print its
success lines unconditionally - on an input no matcher touches, both
files are rewritten with their original content - but final_update.py
aborts before its writes and prints, leaving the disk unchanged and
producing no output. -/
theorem update_pages_unconditional_write (fs : FS) :
    (runUpdatePages fs).2 = true ∧
    (runUpdatePages fs).1.files =
      { station := applyRules upStationRules fs.station,
        region := applyRules upRegionRules fs.region } ∧
    (runUpdatePages fs).1.out = [upMsg1, upMsg2, upMsg3] ∧
    List.countP Step.isWrite updatePagesSteps = 2 ∧
    applyRules upStationRules (strL "x") = strL "x" ∧
    applyRules upRegionRules (strL "x") = strL "x" ∧
    (runFinalUpdate fs).1.files = fs ∧
    (runFinalUpdate fs).1.out = [] := by
  rw [runUpdatePages_eq, runFinalUpdate_eq]
  exact ⟨rfl, rfl, rfl, by decide, by decide, by decide, rfl, rfl⟩
